import Mathlib

/-!
Verification of the PowerUp! Streamlit power-analysis engine.

The Python source (`app.py`) defines three pure helpers used by the UI:
`calculate_multiplier`, `get_df_for_design`, and `estimate_design_effect`.
They are embedded shallowly below: Python ints become `ℤ`, Python floats
become exact rationals `ℚ`, the Student-t quantile `scipy.stats.t.ppf`
(external library code) becomes an abstract function parameter, dictionary
lookup with a default becomes `List.lookup` followed by `Option.getD`, and a
Python `ZeroDivisionError` becomes an `Option` returning `none`.

The `pypowerup` formula package itself (`effect_size`, `power`,
`sample_size`) is not part of the source tree, only its test suite and its
callers are; where a claim depends on it, the relevant mode of the
dispatcher is modelled from the specification and marked as such.
-/

/-- The optional parameter mapping handed to `get_df_for_design`.
Each field models one key the Python function reads with `params.get`;
`none` models an absent key. -/
structure DfParams where
  n : Option ℤ
  J : Option ℤ
  K : Option ℤ
  L : Option ℤ
  g : Option ℤ
  T : Option ℤ
deriving DecidableEq, Repr

/-- The `df_formulas` dictionary from `get_df_for_design` in `app.py`,
as an association list keyed by design id, built from the already
defaulted counts. -/
def df_formulas (n J K L g T : ℤ) : List (String × ℤ) :=
  [("ira", n - g - 2),
   ("bira2_1c", J * (n - 1) - g - 1),
   ("bira2_1f", J * (n - 2) - g),
   ("bira2_1r", J - g - 1),
   ("bira3_1r", K - g - 1),
   ("bira4_1r", L - g - 1),
   ("cra2_2r", J - g - 2),
   ("cra3_3r", K - g - 2),
   ("cra4_4r", L - g - 2),
   ("bcra3_2f", K * (J - 2) - g),
   ("bcra3_2r", K - g - 1),
   ("bcra4_2r", L - g - 1),
   ("bcra4_3f", L * (K - 2) - g),
   ("bcra4_3r", L - g - 1),
   ("rd2_1f", J * (n - 2) - g),
   ("rd2_1r", J - g - 1),
   ("rdc_2r", J - g - 2),
   ("rdc_3r", K - g - 2),
   ("rd3_2f", K * (J - 1) - g),
   ("its", K * T - g - 1)]

/-- The design ids that key the `df_formulas` dictionary. -/
def df_design_ids : List String :=
  (df_formulas 0 0 0 0 0 0).map Prod.fst

/-- `get_df_for_design(design_id, params)` from `app.py`: defaults the six
counts (`n=30, J=10, K=10, L=10, g=0, T=5`), looks the design id up in the
formula dictionary with default `10`, and floors the result at `1`
(`max(1, df_formulas.get(design_id, 10))`). -/
def get_df_for_design (design_id : String) (params : DfParams) : ℤ :=
  let n := params.n.getD 30
  let J := params.J.getD 10
  let K := params.K.getD 10
  let L := params.L.getD 10
  let g := params.g.getD 0
  let T := params.T.getD 5
  max 1 (((df_formulas n J K L g T).lookup design_id).getD 10)

/-- A fully supplied parameter mapping (every key present). -/
def DfParams.all (n J K L g T : ℤ) : DfParams :=
  ⟨some n, some J, some K, some L, some g, some T⟩

/-- The empty parameter mapping (every key absent). -/
def DfParams.empty : DfParams :=
  ⟨none, none, none, none, none, none⟩

/-- Result value of `estimate_design_effect`: either a finite rational or
the Python float `inf` returned by the `rho_ts >= 1` guard. -/
inductive DesignEffect where
  | val : ℚ → DesignEffect
  | inf : DesignEffect
deriving DecidableEq, Repr

/-- `estimate_design_effect(rho_ts)` from `app.py`: returns `inf` when
`rho_ts >= 1`, otherwise evaluates `1 / (1 - rho_ts ** 2)`; a zero
denominator raises `ZeroDivisionError` in Python, modelled as `none`. -/
def estimate_design_effect (rho_ts : ℚ) : Option DesignEffect :=
  if 1 ≤ rho_ts then some .inf
  else if 1 - rho_ts ^ 2 = 0 then none
  else some (.val (1 / (1 - rho_ts ^ 2)))

/-- `calculate_multiplier(alpha, power, df, two_tailed)` from `app.py`,
parameterized by the Student-t quantile function `tppf` (an abstraction of
`scipy.stats.t.ppf`, which is external library code): when `two_tailed`
is `2` alpha is halved, `t1 = ppf(1 - alpha, df)`,
`t2 = abs(ppf(1 - power, df))`, `m = t1 + t2` if `power >= 0.5` else
`t1 - t2`, returning `(m, t1, t2)`. -/
def calculate_multiplier (tppf : ℚ → ℤ → ℚ) (alpha power : ℚ)
    (df two_tailed : ℤ) : ℚ × ℚ × ℚ :=
  let a := if two_tailed = 2 then alpha / 2 else alpha
  let t1 := tppf (1 - a) df
  let t2 := |tppf (1 - power) df|
  let m := if 1 / 2 ≤ power then t1 + t2 else t1 - t2
  (m, t1, t2)

/-- Modelled from the spec: the `pypowerup` dispatcher is absent from the
source tree (only its test suite and callers are present). Per §4.3 of the
spec, the MDES of a design at a given value of its sample-size parameter
is the multiplier `M` (whose degrees of freedom depend on that parameter)
times a positive standard-error factor. -/
def mdes_fn (tppf : ℚ → ℤ → ℚ) (alpha power : ℚ) (df : ℕ → ℤ)
    (se : ℕ → ℚ) (two_tailed : ℤ) (size : ℕ) : ℚ :=
  (calculate_multiplier tppf alpha power (df size) two_tailed).1 * se size

/-- Modelled from the spec: the sample-size mode of the absent `pypowerup`
dispatcher. Per §4.4 of the spec it solves for the sample-size parameter
of the design and rounds to the smallest integer meeting the target effect
size, i.e. the least size whose MDES does not exceed the target. -/
def sample_size_mode (mdes_formula : ℕ → ℚ) (es : ℚ)
    (h : ∃ s, mdes_formula s ≤ es) : ℕ :=
  Nat.find h

/-- Modelled from the spec: the MDES mode of the absent `pypowerup`
dispatcher directly evaluates the MDES formula of the design at the given
sample size (§4.4 of the spec). -/
def effect_size_mode (mdes_formula : ℕ → ℚ) (size : ℕ) : ℚ :=
  mdes_formula size

/-- Modelled from the spec: the power mode of the absent `pypowerup`
dispatcher uses a bounded 1-D root-find (bisection with an iteration cap,
§4.4 and §5 of the spec) against the residual function of the design.
Each step halves the bracket toward the side indicated by the residual
sign and the final midpoint is returned. -/
def bisect (residual : ℚ → ℚ) : ℕ → ℚ → ℚ → ℚ
  | 0, lo, hi => (lo + hi) / 2
  | fuel + 1, lo, hi =>
    if residual ((lo + hi) / 2) ≤ 0 then
      bisect residual fuel ((lo + hi) / 2) hi
    else
      bisect residual fuel lo ((lo + hi) / 2)

/-- Modelled from the spec: power mode root-finds the power `π` over the
open bracket `(alpha, 1)` (§4.4 of the spec: "a 1-D root-find over π in
the open interval (alpha, 1)"). -/
def power_mode (residual : ℚ → ℚ) (alpha : ℚ) (cap : ℕ) : ℚ :=
  bisect residual cap alpha 1

/-- Association-list lookup misses every key that is not in the key list. -/
theorem lookup_eq_none_of_not_mem_keys {β : Type} (id : String) :
    ∀ l : List (String × β), id ∉ l.map Prod.fst → l.lookup id = none
  | [], _ => rfl
  | (k, v) :: xs, h => by
    have hk : id ≠ k := by
      intro hik
      exact h (by simp [hik])
    have hxs : id ∉ xs.map Prod.fst := by
      intro hm
      exact h (by simp [hm])
    simpa [List.lookup, beq_eq_false_iff_ne.mpr hk] using
      lookup_eq_none_of_not_mem_keys id xs hxs

/-- The key list of the formula dictionary does not depend on the counts. -/
theorem df_formulas_keys (n J K L g T : ℤ) :
    (df_formulas n J K L g T).map Prod.fst = df_design_ids := rfl

/-- Bisection stays strictly inside the initial bracket. -/
theorem bisect_mem_open (residual : ℚ → ℚ) :
    ∀ (fuel : ℕ) (lo hi : ℚ), lo < hi →
      lo < bisect residual fuel lo hi ∧ bisect residual fuel lo hi < hi
  | 0, lo, hi, h => by
    refine ⟨?_, ?_⟩
    · show lo < (lo + hi) / 2
      linarith
    · show (lo + hi) / 2 < hi
      linarith
  | fuel + 1, lo, hi, h => by
    have hmid1 : lo < (lo + hi) / 2 := by linarith
    have hmid2 : (lo + hi) / 2 < hi := by linarith
    by_cases hres : residual ((lo + hi) / 2) ≤ 0
    · have ih := bisect_mem_open residual fuel ((lo + hi) / 2) hi hmid2
      simp only [bisect, if_pos hres]
      exact ⟨lt_trans hmid1 ih.1, ih.2⟩
    · have ih := bisect_mem_open residual fuel lo ((lo + hi) / 2) hmid1
      simp only [bisect, if_neg hres]
      exact ⟨ih.1, lt_trans ih.2 hmid2⟩

/-- C1: `calculate_multiplier` halves alpha before the quantile lookup
exactly when the tail count is `2`, sets `T1` to the Student-t quantile at
one minus the (possibly halved) alpha, sets `T2` to the absolute quantile
at `1 - power`, computes `M = T1 + T2` when `power ≥ 0.5` and
`M = T1 - T2` when `power < 0.5`, and returns the triple `(M, T1, T2)`. -/
theorem C1_multiplier_structure (tppf : ℚ → ℤ → ℚ) (alpha power : ℚ)
    (df two_tailed : ℤ) :
    (calculate_multiplier tppf alpha power df 2).2.1
      = tppf (1 - alpha / 2) df ∧
    (two_tailed ≠ 2 →
      (calculate_multiplier tppf alpha power df two_tailed).2.1
        = tppf (1 - alpha) df) ∧
    (calculate_multiplier tppf alpha power df two_tailed).2.2
      = |tppf (1 - power) df| ∧
    (1 / 2 ≤ power →
      (calculate_multiplier tppf alpha power df two_tailed).1
        = (calculate_multiplier tppf alpha power df two_tailed).2.1
          + (calculate_multiplier tppf alpha power df two_tailed).2.2) ∧
    (power < 1 / 2 →
      (calculate_multiplier tppf alpha power df two_tailed).1
        = (calculate_multiplier tppf alpha power df two_tailed).2.1
          - (calculate_multiplier tppf alpha power df two_tailed).2.2) := by
  refine ⟨rfl, ?_, rfl, fun h => if_pos h, fun h => if_neg (not_le.mpr h)⟩
  intro h
  show tppf (1 - if two_tailed = 2 then alpha / 2 else alpha) df
    = tppf (1 - alpha) df
  rw [if_neg h]

/-- C1 applied at a concrete one-tailed, high-power input. -/
theorem C1_multiplier_structure_witness :
    (calculate_multiplier (fun q _ => q) (1 / 20) (4 / 5) 398 1).2.1
      = 1 - 1 / 20 ∧
    (calculate_multiplier (fun q _ => q) (1 / 20) (4 / 5) 398 1).1
      = (calculate_multiplier (fun q _ => q) (1 / 20) (4 / 5) 398 1).2.1
        + (calculate_multiplier (fun q _ => q) (1 / 20) (4 / 5) 398 1).2.2 :=
  ⟨(C1_multiplier_structure (fun q _ => q) (1 / 20) (4 / 5) 398 1).2.1
      (by decide),
   (C1_multiplier_structure (fun q _ => q) (1 / 20) (4 / 5) 398 1).2.2.2.1
      (by norm_num)⟩

/-- C2: on a fully supplied parameter mapping, `get_df_for_design` returns
the documented linear formula of each design floored at `1`, for all
twenty listed design ids; in particular `ira` with `n = 400`, `g = 0`
yields `398`. -/
theorem C2_df_formula_table (n J K L g T : ℤ) :
    get_df_for_design "ira" (.all n J K L g T) = max 1 (n - g - 2) ∧
    get_df_for_design "bira2_1c" (.all n J K L g T) = max 1 (J * (n - 1) - g - 1) ∧
    get_df_for_design "bira2_1f" (.all n J K L g T) = max 1 (J * (n - 2) - g) ∧
    get_df_for_design "bira2_1r" (.all n J K L g T) = max 1 (J - g - 1) ∧
    get_df_for_design "bira3_1r" (.all n J K L g T) = max 1 (K - g - 1) ∧
    get_df_for_design "bira4_1r" (.all n J K L g T) = max 1 (L - g - 1) ∧
    get_df_for_design "cra2_2r" (.all n J K L g T) = max 1 (J - g - 2) ∧
    get_df_for_design "cra3_3r" (.all n J K L g T) = max 1 (K - g - 2) ∧
    get_df_for_design "cra4_4r" (.all n J K L g T) = max 1 (L - g - 2) ∧
    get_df_for_design "bcra3_2f" (.all n J K L g T) = max 1 (K * (J - 2) - g) ∧
    get_df_for_design "bcra3_2r" (.all n J K L g T) = max 1 (K - g - 1) ∧
    get_df_for_design "bcra4_2r" (.all n J K L g T) = max 1 (L - g - 1) ∧
    get_df_for_design "bcra4_3f" (.all n J K L g T) = max 1 (L * (K - 2) - g) ∧
    get_df_for_design "bcra4_3r" (.all n J K L g T) = max 1 (L - g - 1) ∧
    get_df_for_design "rd2_1f" (.all n J K L g T) = max 1 (J * (n - 2) - g) ∧
    get_df_for_design "rd2_1r" (.all n J K L g T) = max 1 (J - g - 1) ∧
    get_df_for_design "rdc_2r" (.all n J K L g T) = max 1 (J - g - 2) ∧
    get_df_for_design "rdc_3r" (.all n J K L g T) = max 1 (K - g - 2) ∧
    get_df_for_design "rd3_2f" (.all n J K L g T) = max 1 (K * (J - 1) - g) ∧
    get_df_for_design "its" (.all n J K L g T) = max 1 (K * T - g - 1) ∧
    get_df_for_design "ira" (.all 400 J K L 0 T) = 398 := by
  refine ⟨rfl, rfl, rfl, rfl, rfl, rfl, rfl, rfl, rfl, rfl, rfl, rfl, rfl,
    rfl, rfl, rfl, rfl, rfl, rfl, rfl, ?_⟩
  rfl

/-- C3: `get_df_for_design` is total on partial parameter mappings: absent
counts take the documented fallbacks (`n=30, J=10, K=10, L=10, T=5, g=0`),
so the empty mapping behaves exactly like the fully defaulted one; the
result is always at least `1`, even when the design formula is zero or
negative (e.g. `bira2_1r` with `J = 0`, `g = 5` has formula value `-6` but
returns `1`). -/
theorem C3_df_defaults_and_floor :
    (∀ id : String,
      get_df_for_design id DfParams.empty
        = get_df_for_design id (.all 30 10 10 10 0 5)) ∧
    (∀ (id : String) (p : DfParams), 1 ≤ get_df_for_design id p) ∧
    get_df_for_design "bira2_1r" (.all 30 0 10 10 5 5) = 1 := by
  refine ⟨fun _ => rfl, fun id p => le_max_left 1 _, rfl⟩

/-- C4 counterexample: at `rho_ts = -1` the call fails (division by zero)
instead of returning the claimed value `1 / (1 - rho_ts^2)`. -/
theorem C4_design_effect_counterexample :
    estimate_design_effect (-1) = none ∧
    estimate_design_effect (-1)
      ≠ some (DesignEffect.val (1 / (1 - (-1 : ℚ) ^ 2))) := by
  constructor
  · norm_num [estimate_design_effect]
  · intro h
    norm_num [estimate_design_effect] at h
    exact Option.noConfusion h

/-- C4 amended: for every `rho_ts ≥ 1` the helper returns infinity; for
every `rho_ts < 1` other than `-1` it returns `1 / (1 - rho_ts^2)`; at
`rho_ts = -1` it fails with a division by zero; and at `rho_ts = 0.80` the
returned value is `25/9`, which is `2.7778` to four decimal places. -/
theorem C4_design_effect_amended :
    (∀ rho_ts : ℚ, 1 ≤ rho_ts → estimate_design_effect rho_ts = some .inf) ∧
    (∀ rho_ts : ℚ, rho_ts ≠ -1 → rho_ts < 1 →
      estimate_design_effect rho_ts
        = some (.val (1 / (1 - rho_ts ^ 2)))) ∧
    estimate_design_effect (-1) = none ∧
    estimate_design_effect (4 / 5) = some (.val (25 / 9)) ∧
    |(25 : ℚ) / 9 - 27778 / 10000| < 1 / 20000 := by
  refine ⟨?_, ?_, ?_, ?_, ?_⟩
  · intro rho_ts h
    simp [estimate_design_effect, h]
  · intro rho_ts hne hlt
    have hd : 1 - rho_ts ^ 2 ≠ 0 := by
      intro h0
      have h2 : (rho_ts - 1) * (rho_ts + 1) = 0 := by ring_nf; linarith
      rcases mul_eq_zero.mp h2 with h | h
      · linarith
      · exact hne (by linarith)
    simp [estimate_design_effect, not_le.mpr hlt, hd]
  · norm_num [estimate_design_effect]
  · norm_num [estimate_design_effect]
  · have hval : (25 : ℚ) / 9 - 27778 / 10000 = -(1 / 45000) := by norm_num
    rw [hval, abs_neg, abs_of_pos (by norm_num)]
    norm_num

/-- C4 amended, applied at the concrete input `rho_ts = 1/2`. -/
theorem C4_design_effect_amended_witness :
    estimate_design_effect (1 / 2)
      = some (DesignEffect.val (1 / (1 - (1 / 2 : ℚ) ^ 2))) :=
  C4_design_effect_amended.2.1 (1 / 2) (by norm_num) (by norm_num)

/-- C6: for every design residual function and every valid significance
level, the value returned by the power mode lies strictly between `0` and
`1`, whatever the iteration cap. -/
theorem C6_power_in_unit_interval (residual : ℚ → ℚ) (alpha : ℚ) (cap : ℕ)
    (h0 : 0 < alpha) (h1 : alpha < 1) :
    0 < power_mode residual alpha cap ∧ power_mode residual alpha cap < 1 :=
  have h := bisect_mem_open residual cap alpha 1 h1
  ⟨lt_trans h0 h.1, h.2⟩

/-- C6 applied to a concrete residual at `alpha = 0.05` with cap `8`. -/
theorem C6_power_in_unit_interval_witness :
    0 < power_mode (fun x => x - 1 / 4) (1 / 20) 8 ∧
    power_mode (fun x => x - 1 / 4) (1 / 20) 8 < 1 :=
  C6_power_in_unit_interval (fun x => x - 1 / 4) (1 / 20) 8
    (by norm_num) (by norm_num)

/-- C7: feeding the computed minimum sample size back into MDES mode
recovers the target effect size from below: the recovered MDES is at most
the target `X` (possibly slightly smaller, since the sample size is the
smallest integer meeting the target), and every strictly smaller sample
size yields an MDES strictly above `X`. -/
theorem C7_round_trip (mdes_formula : ℕ → ℚ) (X : ℚ)
    (h : ∃ s, mdes_formula s ≤ X) :
    effect_size_mode mdes_formula (sample_size_mode mdes_formula X h) ≤ X ∧
    ∀ m < sample_size_mode mdes_formula X h,
      X < effect_size_mode mdes_formula m := by
  refine ⟨Nat.find_spec h, fun m hm => ?_⟩
  exact lt_of_not_le (Nat.find_min h hm)

/-- C7 applied to a concrete strictly decreasing MDES curve at target
effect size `X = 1/3`. -/
theorem C7_round_trip_witness :
    effect_size_mode (fun s => 1 / (s + 1))
      (sample_size_mode (fun s => 1 / (s + 1)) (1 / 3)
        ⟨2, by norm_num⟩) ≤ 1 / 3 :=
  (C7_round_trip (fun s => 1 / (s + 1)) (1 / 3) ⟨2, by norm_num⟩).1

/-- C8: the multiplier is not invariant to the tail count: whenever the
quantile function is strictly increasing in its probability argument there
are inputs on which the two-tailed and one-tailed calls differ; and at
equal power and alpha the one-tailed MDES is pointwise at most the
two-tailed MDES (in both multiplier branches, since `T2` does not depend
on the tail count), so the minimum one-tailed sample size is at most the
minimum two-tailed sample size. -/
theorem C8_multiplier_tails_and_sample_size (tppf : ℚ → ℤ → ℚ)
    (hmono : ∀ (d : ℤ) (x y : ℚ), x < y → tppf x d < tppf y d)
    (alpha power es : ℚ) (df : ℕ → ℤ) (se : ℕ → ℚ)
    (halpha : 0 < alpha) (hse : ∀ s, 0 < se s)
    (h1 : ∃ s, mdes_fn tppf alpha power df se 1 s ≤ es)
    (h2 : ∃ s, mdes_fn tppf alpha power df se 2 s ≤ es) :
    (∃ (a p : ℚ) (d : ℤ),
      calculate_multiplier tppf a p d 2 ≠ calculate_multiplier tppf a p d 1) ∧
    sample_size_mode (mdes_fn tppf alpha power df se 1) es h1
      ≤ sample_size_mode (mdes_fn tppf alpha power df se 2) es h2 := by
  constructor
  · refine ⟨alpha, power, 0, ?_⟩
    intro heq
    have h21 := congrArg (fun t => t.2.1) heq
    simp [calculate_multiplier] at h21
    have hlt : tppf (1 - alpha) 0 < tppf (1 - alpha / 2) 0 :=
      hmono 0 (1 - alpha) (1 - alpha / 2) (by linarith)
    rw [h21] at hlt
    exact lt_irrefl _ hlt
  · have hpt : ∀ s, mdes_fn tppf alpha power df se 1 s
        ≤ mdes_fn tppf alpha power df se 2 s := by
      intro s
      have ht1 : tppf (1 - alpha) (df s) < tppf (1 - alpha / 2) (df s) :=
        hmono (df s) (1 - alpha) (1 - alpha / 2) (by linarith)
      have hm : (calculate_multiplier tppf alpha power (df s) 1).1
          ≤ (calculate_multiplier tppf alpha power (df s) 2).1 := by
        have hb :
            (if 1 / 2 ≤ power
              then tppf (1 - alpha) (df s) + |tppf (1 - power) (df s)|
              else tppf (1 - alpha) (df s) - |tppf (1 - power) (df s)|)
            ≤ (if 1 / 2 ≤ power
              then tppf (1 - alpha / 2) (df s) + |tppf (1 - power) (df s)|
              else tppf (1 - alpha / 2) (df s) - |tppf (1 - power) (df s)|) := by
          by_cases hpw : 1 / 2 ≤ power
          · rw [if_pos hpw, if_pos hpw]
            linarith
          · rw [if_neg hpw, if_neg hpw]
            linarith
        exact hb
      exact mul_le_mul_of_nonneg_right hm (le_of_lt (hse s))
    exact Nat.find_min' h1 (le_trans (hpt _) (Nat.find_spec h2))

/-- C8 applied with the identity quantile (strictly increasing) at
`alpha = 0.05`, `power = 0.80`, constant standard error one half. -/
theorem C8_multiplier_tails_and_sample_size_witness :
    sample_size_mode
        (mdes_fn (fun q _ => q) (1 / 20) (4 / 5) (fun _ => 398)
          (fun _ => 1 / 2) 1) 1
        ⟨0, by norm_num [mdes_fn, calculate_multiplier, abs_of_nonneg]⟩
      ≤ sample_size_mode
        (mdes_fn (fun q _ => q) (1 / 20) (4 / 5) (fun _ => 398)
          (fun _ => 1 / 2) 2) 1
        ⟨0, by norm_num [mdes_fn, calculate_multiplier, abs_of_nonneg]⟩ :=
  (C8_multiplier_tails_and_sample_size (fun q _ => q) (fun _ _ _ h => h)
    (1 / 20) (4 / 5) 1 (fun _ => 398) (fun _ => 1 / 2) (by norm_num)
    (fun _ => by norm_num) _ _).2

/-- C9: every design id absent from the twenty-entry formula dictionary —
including the public ITS identifiers `its_nocompare` and `its_wcompare`,
since the dictionary is keyed only by `its` — makes `get_df_for_design`
return the default `10` on every parameter mapping. -/
theorem C9_unknown_design_default :
    (∀ (id : String) (p : DfParams),
      id ∉ df_design_ids → get_df_for_design id p = 10) ∧
    (∀ p : DfParams,
      get_df_for_design "its_nocompare" p = 10 ∧
      get_df_for_design "its_wcompare" p = 10) := by
  constructor
  · intro id p h
    have hnone :
        (df_formulas (p.n.getD 30) (p.J.getD 10) (p.K.getD 10) (p.L.getD 10)
          (p.g.getD 0) (p.T.getD 5)).lookup id = none := by
      refine lookup_eq_none_of_not_mem_keys id _ ?_
      rw [df_formulas_keys]
      exact h
    simp [get_df_for_design, hnone]
  · exact fun p => ⟨rfl, rfl⟩

/-- C9 applied at a concrete absent id and the empty mapping. -/
theorem C9_unknown_design_default_witness :
    get_df_for_design "its_wcompare" DfParams.empty = 10 :=
  C9_unknown_design_default.1 "its_wcompare" DfParams.empty (by decide)

/-- C10: the guard covers only `rho_ts ≥ 1`; at `rho_ts = -1` the division
by zero makes the call fail; for every `rho_ts < -1` the helper returns a
negative value; and it returns a positive finite value exactly on
`-1 < rho_ts < 1`, infinity on `rho_ts ≥ 1`. -/
theorem C10_design_effect_guard :
    estimate_design_effect (-1) = none ∧
    (∀ rho_ts : ℚ, rho_ts < -1 →
      estimate_design_effect rho_ts = some (.val (1 / (1 - rho_ts ^ 2))) ∧
      1 / (1 - rho_ts ^ 2) < 0) ∧
    (∀ rho_ts : ℚ, -1 < rho_ts → rho_ts < 1 →
      estimate_design_effect rho_ts = some (.val (1 / (1 - rho_ts ^ 2))) ∧
      0 < 1 / (1 - rho_ts ^ 2)) ∧
    (∀ rho_ts : ℚ, 1 ≤ rho_ts → estimate_design_effect rho_ts = some .inf) := by
  refine ⟨?_, ?_, ?_, ?_⟩
  · norm_num [estimate_design_effect]
  · intro rho_ts h
    have hneg : 1 - rho_ts ^ 2 < 0 := by nlinarith
    refine ⟨?_, one_div_neg.mpr hneg⟩
    simp [estimate_design_effect, not_le.mpr (by linarith : rho_ts < 1),
      ne_of_lt hneg]
  · intro rho_ts h1 h2
    have hpos : 0 < 1 - rho_ts ^ 2 := by nlinarith
    have hne : 1 - rho_ts ^ 2 ≠ 0 := ne_of_gt hpos
    refine ⟨?_, one_div_pos.mpr hpos⟩
    simp [estimate_design_effect, not_le.mpr h2, hne]
  · intro rho_ts h
    simp [estimate_design_effect, h]

/-- C10 applied at the concrete inputs `rho_ts = -2` and `rho_ts = 0`. -/
theorem C10_design_effect_guard_witness :
    (estimate_design_effect (-2)
        = some (DesignEffect.val (1 / (1 - (-2 : ℚ) ^ 2))) ∧
      1 / (1 - (-2 : ℚ) ^ 2) < 0) ∧
    (estimate_design_effect 0
        = some (DesignEffect.val (1 / (1 - (0 : ℚ) ^ 2))) ∧
      0 < 1 / (1 - (0 : ℚ) ^ 2)) :=
  ⟨C10_design_effect_guard.2.1 (-2) (by norm_num),
   C10_design_effect_guard.2.2.1 0 (by norm_num) (by norm_num)⟩
